import Mathlib

/-!
Verification of core properties of the TISM cooperative multitasking runtime.

The definitions below are a shallow embedding of the C sources:
- `TISM_Messaging.c` (circular buffers),
- `TISM_Postman.c` (message routing and wake-up requests),
- `TISM_Scheduler.c` (priority cycling, wake-up deadline adjustment, start-up
  staggering),
- `TISM_SoftwareTimer.c` (timer expiry scan),
- `TISM_IRQHandler.c` (interrupt fan-out with anti-bounce),
- `TISM_TaskManager.c` (call-site permission checks).

Machine integers of the C code are modelled as `Nat`; all index arithmetic of
the circular buffers stays below `MAX_MESSAGES`, so no wrap-around of the
16-bit head/tail indices can occur and plain `Nat` arithmetic is faithful.
-/

namespace TISM

/-! ### Constants from TISM.h -/

def MAX_MESSAGES : Nat := 50
def MAX_TASKS : Nat := 30
def MAX_CORES : Nat := 2

def OK : Nat := 0
def ERR_TASK_NOT_FOUND : Nat := 5
def ERR_INVALID_OPERATION : Nat := 8

def TISM_PING : Nat := 51
def TISM_ECHO : Nat := 52
def TISM_SET_SYS_STATE : Nat := 53
def TISM_SET_TASK_STATE : Nat := 54
def TISM_SET_TASK_PRIORITY : Nat := 55
def TISM_SET_TASK_SLEEP : Nat := 56
def TISM_SET_TASK_WAKEUPTIME : Nat := 57
def TISM_SET_TASK_DEBUG : Nat := 58
def TISM_WAKE_ALL_TASKS : Nat := 59
def TISM_DEDICATE_TO_TASK : Nat := 60

def PRIORITY_HIGH : Nat := 50000
def PRIORITY_NORMAL : Nat := 100000
def PRIORITY_LOW : Nat := 500000

/-! ### Circular buffers (TISM_Messaging.c)

A `TISM_CircularBuffer` is a fixed array of `MAX_MESSAGES` records together
with a producer index `Head` and a consumer index `Tail`.  The array is
modelled as a `List` of length `MAX_MESSAGES`; `List.set` mirrors the in-place
store `Buffer->Message[Buffer->Head] = ...`. -/

structure TISM_Message where
  SenderTaskID : Nat
  RecipientTaskID : Nat
  MessageType : Nat
  Message : Nat
  Specification : Nat
  MessageTimestamp : Nat
deriving DecidableEq, Repr, Inhabited

structure TISM_CircularBuffer where
  Message : List TISM_Message
  Head : Nat
  Tail : Nat
deriving DecidableEq, Repr, Inhabited

/-- Model of `TISM_CircularBufferMessagesWaiting` from TISM_Messaging.c. -/
def TISM_CircularBufferMessagesWaiting (Buffer : TISM_CircularBuffer) : Nat :=
  if Buffer.Head ≠ Buffer.Tail then
    if Buffer.Head > Buffer.Tail then Buffer.Head - Buffer.Tail
    else (MAX_MESSAGES - Buffer.Tail) + Buffer.Head
  else 0

/-- Model of `TISM_CircularBufferSlotsAvailable` from TISM_Messaging.c. -/
def TISM_CircularBufferSlotsAvailable (Buffer : TISM_CircularBuffer) : Nat :=
  MAX_MESSAGES - TISM_CircularBufferMessagesWaiting Buffer - 1

/-- Model of `TISM_CircularBufferRead` from TISM_Messaging.c: non-destructive read of
the oldest record (`NULL` becomes `none`). -/
def TISM_CircularBufferRead (Buffer : TISM_CircularBuffer) : Option TISM_Message :=
  if TISM_CircularBufferMessagesWaiting Buffer > 0 then
    some (Buffer.Message.getD Buffer.Tail default)
  else none

/-- Model of `TISM_CircularBufferDelete` from TISM_Messaging.c: advance the tail by one
(wrapping at `MAX_MESSAGES`) unless the buffer is empty. -/
def TISM_CircularBufferDelete (Buffer : TISM_CircularBuffer) : TISM_CircularBuffer :=
  if TISM_CircularBufferMessagesWaiting Buffer > 0 then
    { Buffer with Tail := if Buffer.Tail + 1 = MAX_MESSAGES then 0 else Buffer.Tail + 1 }
  else Buffer

/-- Model of `TISM_CircularBufferWriteWithTimestamp` from TISM_Messaging.c: store a
record at `Head` and advance `Head` (wrapping) when a slot is available,
otherwise return `false` and leave the buffer untouched. -/
def TISM_CircularBufferWriteWithTimestamp (Buffer : TISM_CircularBuffer)
    (SenderTaskID RecipientTaskID MessageType Message Specification Timestamp : Nat) :
    TISM_CircularBuffer × Bool :=
  if TISM_CircularBufferSlotsAvailable Buffer > 0 then
    let NewRecord : TISM_Message :=
      ⟨SenderTaskID, RecipientTaskID, MessageType, Message, Specification, Timestamp⟩
    ({ Buffer with
        Message := Buffer.Message.set Buffer.Head NewRecord,
        Head := if Buffer.Head + 1 = MAX_MESSAGES then 0 else Buffer.Head + 1 }, true)
  else (Buffer, false)

/-- Model of `TISM_CircularBufferClear` from TISM_Messaging.c. -/
def TISM_CircularBufferClear (Buffer : TISM_CircularBuffer) : TISM_CircularBuffer :=
  { Buffer with Tail := Buffer.Head }

/-- A concrete completely full buffer (head one slot behind tail, modulo
`MAX_MESSAGES`): 49 unread records, 0 slots available. -/
def fullBufferExample : TISM_CircularBuffer :=
  { Message := List.replicate MAX_MESSAGES default, Head := 49, Tail := 0 }

/-- A concrete empty buffer (head = tail). -/
def emptyBufferExample : TISM_CircularBuffer :=
  { Message := List.replicate MAX_MESSAGES default, Head := 7, Tail := 7 }

/-- C1: a write issued when the buffer is full (`slots_available = 0`) returns
the Full indication (`false`) and leaves the head index, the tail index and
every stored record unchanged; no unread record is overwritten. -/
theorem C1_write_on_full_buffer_is_rejected (Buffer : TISM_CircularBuffer)
    (SenderTaskID RecipientTaskID MessageType Message Specification Timestamp : Nat)
    (hfull : TISM_CircularBufferSlotsAvailable Buffer = 0) :
    TISM_CircularBufferWriteWithTimestamp Buffer SenderTaskID RecipientTaskID
      MessageType Message Specification Timestamp = (Buffer, false) := by
  unfold TISM_CircularBufferWriteWithTimestamp
  simp [hfull]

/-- C1 witness: the rejected write on a concrete full buffer. -/
theorem C1_write_on_full_buffer_is_rejected_witness :
    TISM_CircularBufferSlotsAvailable fullBufferExample = 0 ∧
      TISM_CircularBufferWriteWithTimestamp fullBufferExample 1 2 3 4 5 6 =
        (fullBufferExample, false) :=
  ⟨rfl, C1_write_on_full_buffer_is_rejected fullBufferExample 1 2 3 4 5 6 rfl⟩

/-- C10: `TISM_CircularBufferDelete` applied to an empty buffer
(`Head = Tail`) is a no-op: head, tail and all stored records are unchanged,
and no error is raised (the function returns normally). -/
theorem C10_delete_on_empty_buffer_is_noop (Buffer : TISM_CircularBuffer)
    (hempty : Buffer.Head = Buffer.Tail) :
    TISM_CircularBufferDelete Buffer = Buffer := by
  unfold TISM_CircularBufferDelete TISM_CircularBufferMessagesWaiting
  simp [hempty]

/-- C10 witness: deleting from a concrete empty buffer changes nothing. -/
theorem C10_delete_on_empty_buffer_is_noop_witness :
    emptyBufferExample.Head = emptyBufferExample.Tail ∧
      TISM_CircularBufferDelete emptyBufferExample = emptyBufferExample :=
  ⟨rfl, C10_delete_on_empty_buffer_is_noop emptyBufferExample rfl⟩

/-! ### Scheduler: post-run wake-up deadline adjustment (TISM_Scheduler.c)

After a task ran successfully, the scheduler executes
`while (TaskWakeUpTimer < RunTimestamp) TaskWakeUpTimer += TaskPriority;`
(lines 220-225).  Task priorities are positive by design; the extra
`0 < TaskPriority` test below only makes the recursion terminate in Lean (the
C loop would not terminate on a zero priority). -/

def TISM_SchedulerAdvanceWakeUpTimer (TaskWakeUpTimer RunTimestamp TaskPriority : Nat) : Nat :=
  if _h1 : TaskWakeUpTimer < RunTimestamp then
    if _h2 : 0 < TaskPriority then
      TISM_SchedulerAdvanceWakeUpTimer (TaskWakeUpTimer + TaskPriority) RunTimestamp TaskPriority
    else TaskWakeUpTimer
  else TaskWakeUpTimer
termination_by RunTimestamp - TaskWakeUpTimer
decreasing_by omega

/-- C3 counterexample: when the stored wake-up deadline already equals the
run-completion timestamp, the adjustment loop does not run and the deadline
stays equal to the timestamp, not strictly greater as claimed. -/
theorem C3_wakeup_strictness_counterexample :
    TISM_SchedulerAdvanceWakeUpTimer 100 100 50 = 100 ∧
      ¬ (100 < TISM_SchedulerAdvanceWakeUpTimer 100 100 50) := by
  rw [TISM_SchedulerAdvanceWakeUpTimer]
  norm_num

/-- C3 (amended): for every task the scheduler executes with a positive
priority, after the post-run deadline adjustment the wake-up deadline is
greater than **or equal to** the timestamp taken when the run completed
(equality occurs exactly when the previous deadline lands on the timestamp). -/
theorem C3_wakeup_deadline_not_in_past (TaskWakeUpTimer RunTimestamp TaskPriority : Nat)
    (hprio : 0 < TaskPriority) :
    RunTimestamp ≤ TISM_SchedulerAdvanceWakeUpTimer TaskWakeUpTimer RunTimestamp TaskPriority := by
  by_cases h : TaskWakeUpTimer < RunTimestamp
  · rw [TISM_SchedulerAdvanceWakeUpTimer, dif_pos h, dif_pos hprio]
    exact C3_wakeup_deadline_not_in_past (TaskWakeUpTimer + TaskPriority) RunTimestamp TaskPriority hprio
  · rw [TISM_SchedulerAdvanceWakeUpTimer, dif_neg h]
    omega
termination_by RunTimestamp - TaskWakeUpTimer
decreasing_by omega

/-- C3 witness: the amended bound at a concrete input. -/
theorem C3_wakeup_deadline_not_in_past_witness :
    0 < 50 ∧ 100 ≤ TISM_SchedulerAdvanceWakeUpTimer 37 100 50 :=
  ⟨by decide, C3_wakeup_deadline_not_in_past 37 100 50 (by decide)⟩

/-! ### Scheduler: priority cycling (TISM_Scheduler.c)

One pass of the work loop walks the whole task table once: core 0 steps the
run pointer from 0 up to `NumberOfTasks - 1`, core 1 from `NumberOfTasks - 1`
down to 0 (lines 186-188 and 252-256).  At every visited id the per-iteration
filter of lines 194-197 is evaluated.  The priority ceiling of a pass cycles
high → normal → low → high … (lines 173-174 and 258-266). -/

def TISM_SchedulerPassVisits (NumberOfTasks : Nat) (Ascending : Bool) : List Nat :=
  if Ascending then List.range NumberOfTasks else (List.range NumberOfTasks).reverse

/-- The ceiling rotation of lines 258-266. -/
def TISM_SchedulerNextRunPriority (RunPriority : Nat) : Nat :=
  if RunPriority = PRIORITY_HIGH then PRIORITY_NORMAL
  else if RunPriority = PRIORITY_NORMAL then PRIORITY_LOW
  else PRIORITY_HIGH

/-- One complete priority cycle of ceilings, starting from `PRIORITY_HIGH`
(line 174). -/
def TISM_SchedulerCycleCeilings : List Nat :=
  [PRIORITY_HIGH, TISM_SchedulerNextRunPriority PRIORITY_HIGH,
   TISM_SchedulerNextRunPriority (TISM_SchedulerNextRunPriority PRIORITY_HIGH)]

/-- The ceilings of a window of `n` complete priority cycles. -/
def TISM_SchedulerWindowCeilings : Nat → List Nat
  | 0 => []
  | n + 1 => TISM_SchedulerCycleCeilings ++ TISM_SchedulerWindowCeilings n

/-- How often task id `t` reaches the per-iteration filter in a window of `n`
complete priority cycles (the claim's notion of "considered": reaching the
filter, before any of its conjuncts is evaluated). -/
def TISM_SchedulerConsideredCount (NumberOfTasks : Nat) (Ascending : Bool) (t n : Nat) : Nat :=
  ((TISM_SchedulerWindowCeilings n).map
    (fun _ => (TISM_SchedulerPassVisits NumberOfTasks Ascending).count t)).sum

/-- How often task id `t` both reaches the filter and passes its
priority-ceiling conjunct `TaskPriority <= RunPriority` (line 195) in a window
of `n` complete priority cycles. -/
def TISM_SchedulerEligibleCount (NumberOfTasks : Nat) (Ascending : Bool)
    (TaskPriority t n : Nat) : Nat :=
  ((TISM_SchedulerWindowCeilings n).map
    (fun RunPriority =>
      if TaskPriority ≤ RunPriority then
        (TISM_SchedulerPassVisits NumberOfTasks Ascending).count t
      else 0)).sum

/-- Every valid task id occurs exactly once in one pass of the walk. -/
theorem TISM_SchedulerPassVisits_count (NumberOfTasks : Nat) (Ascending : Bool) (t : Nat)
    (ht : t < NumberOfTasks) :
    (TISM_SchedulerPassVisits NumberOfTasks Ascending).count t = 1 := by
  have hmem : t ∈ List.range NumberOfTasks := List.mem_range.mpr ht
  have hcount : (List.range NumberOfTasks).count t = 1 :=
    List.count_eq_one_of_mem (List.nodup_range NumberOfTasks) hmem
  unfold TISM_SchedulerPassVisits
  cases Ascending with
  | false => simpa [List.count_reverse] using hcount
  | true => simpa using hcount

/-- C4 counterexample: in a window of one complete priority cycle of a
five-task table, a priority-normal task (id 1, priority `PRIORITY_NORMAL`)
reaches the per-iteration filter 3 times, not the 2 times the claim states
(the count of filter evaluations is independent of the task's priority). -/
theorem C4_considered_count_counterexample :
    TISM_SchedulerConsideredCount 5 true 1 1 = 3 ∧ (3 : Nat) ≠ 2 := by
  constructor
  · decide
  · decide

/-- C4 (amended): over a window of `n` complete priority cycles, every valid
task reaches the per-iteration filter exactly `3n` times regardless of its
priority; the counts `3n` / `2n` / `n` claimed for high / normal / low
priority are the numbers of times the task additionally passes the
priority-ceiling conjunct of the filter. -/
theorem C4_priority_cycling (NumberOfTasks t n : Nat) (Ascending : Bool)
    (ht : t < NumberOfTasks) :
    TISM_SchedulerConsideredCount NumberOfTasks Ascending t n = 3 * n ∧
    TISM_SchedulerEligibleCount NumberOfTasks Ascending PRIORITY_HIGH t n = 3 * n ∧
    TISM_SchedulerEligibleCount NumberOfTasks Ascending PRIORITY_NORMAL t n = 2 * n ∧
    TISM_SchedulerEligibleCount NumberOfTasks Ascending PRIORITY_LOW t n = n := by
  have hcount := TISM_SchedulerPassVisits_count NumberOfTasks Ascending t ht
  induction n with
  | zero =>
      simp [TISM_SchedulerConsideredCount, TISM_SchedulerEligibleCount,
        TISM_SchedulerWindowCeilings]
  | succ n ih =>
      obtain ⟨ih1, ih2, ih3, ih4⟩ := ih
      unfold TISM_SchedulerConsideredCount TISM_SchedulerEligibleCount at *
      rw [TISM_SchedulerWindowCeilings] at *
      simp only [List.map_append, List.sum_append] at *
      simp only [TISM_SchedulerCycleCeilings, TISM_SchedulerNextRunPriority,
        PRIORITY_HIGH, PRIORITY_NORMAL, PRIORITY_LOW] at *
      norm_num at *
      omega

/-- C4 witness: the amended counts for a concrete task and window. -/
theorem C4_priority_cycling_witness :
    2 < 5 ∧
      (TISM_SchedulerConsideredCount 5 true 2 2 = 3 * 2 ∧
       TISM_SchedulerEligibleCount 5 true PRIORITY_HIGH 2 2 = 3 * 2 ∧
       TISM_SchedulerEligibleCount 5 true PRIORITY_NORMAL 2 2 = 2 * 2 ∧
       TISM_SchedulerEligibleCount 5 true PRIORITY_LOW 2 2 = 2) :=
  ⟨by decide, C4_priority_cycling 5 2 2 true (by decide)⟩

/-! ### Scheduler: start-up staggering (TISM_Scheduler.c lines 100-143)

At the end of `Init` the scheduler counts the tasks per priority bucket,
computes one offset per bucket (the bucket's canonical priority value divided
by the bucket's size, C integer division; `round` applied to an already
truncated integer quotient is the identity) and assigns each task its first
wake-up deadline.  The three canonical priority values are compile-time
configuration keys of TISM.h and appear as the parameters `PH`, `PN`, `PL`
below; the task table is abstracted to the list of task priorities in id
order. -/

def TISM_SchedulerCountPriorities (PH PN : Nat) : List Nat → Nat × Nat × Nat
  | [] => (0, 0, 0)
  | p :: rest =>
    let counts := TISM_SchedulerCountPriorities PH PN rest
    if p = PH then (counts.1 + 1, counts.2.1, counts.2.2)
    else if p = PN then (counts.1, counts.2.1 + 1, counts.2.2)
    else (counts.1, counts.2.1, counts.2.2 + 1)

/-- The guarded offset computation of lines 119-121:
`Count > 0 ? round(PriorityValue / Count) : 0`. -/
def TISM_SchedulerPriorityOffset (PriorityValue Count : Nat) : Nat :=
  if 0 < Count then PriorityValue / Count else 0

/-- The assignment loop of lines 127-143, carrying the three per-bucket
position counters. -/
def TISM_SchedulerAssignLoop (PH PN Start OffsetH OffsetN OffsetO : Nat) :
    List Nat → Nat → Nat → Nat → List Nat
  | [], _, _, _ => []
  | p :: rest, cH, cN, cO =>
    if p = PH then
      (Start + cH * OffsetH) ::
        TISM_SchedulerAssignLoop PH PN Start OffsetH OffsetN OffsetO rest (cH + 1) cN cO
    else if p = PN then
      (Start + OffsetH / 2 + cN * OffsetN) ::
        TISM_SchedulerAssignLoop PH PN Start OffsetH OffsetN OffsetO rest cH (cN + 1) cO
    else
      (Start + OffsetN / 2 + cO * OffsetO) ::
        TISM_SchedulerAssignLoop PH PN Start OffsetH OffsetN OffsetO rest cH cN (cO + 1)

/-- The whole staggering step: count the buckets, derive the offsets, assign
the first wake-up deadlines in task-id order. -/
def TISM_SchedulerAssignWakeUpTimers (PH PN PL Start : Nat) (Priorities : List Nat) :
    List Nat :=
  let counts := TISM_SchedulerCountPriorities PH PN Priorities
  let OffsetH := TISM_SchedulerPriorityOffset PH counts.1
  let OffsetN := TISM_SchedulerPriorityOffset PN counts.2.1
  let OffsetO := TISM_SchedulerPriorityOffset PL counts.2.2
  TISM_SchedulerAssignLoop PH PN Start OffsetH OffsetN OffsetO Priorities 0 0 0

/-- Position of the task at index `i` within the high bucket: the number of
earlier tasks classified as priority-high. -/
def TISM_BucketHighBefore (PH : Nat) (Priorities : List Nat) (i : Nat) : Nat :=
  ((Priorities.take i).filter (fun q => decide (q = PH))).length

/-- Position within the normal bucket. -/
def TISM_BucketNormalBefore (PH PN : Nat) (Priorities : List Nat) (i : Nat) : Nat :=
  ((Priorities.take i).filter (fun q => decide (¬q = PH ∧ q = PN))).length

/-- Position within the remaining ("other", canonically priority-low)
bucket. -/
def TISM_BucketOtherBefore (PH PN : Nat) (Priorities : List Nat) (i : Nat) : Nat :=
  ((Priorities.take i).filter (fun q => decide (¬q = PH ∧ ¬q = PN))).length

theorem TISM_BucketHighBefore_cons (PH p : Nat) (rest : List Nat) (i : Nat) :
    TISM_BucketHighBefore PH (p :: rest) (i + 1) =
      TISM_BucketHighBefore PH rest i + (if p = PH then 1 else 0) := by
  unfold TISM_BucketHighBefore
  rw [List.take_succ_cons, List.filter_cons]
  by_cases hp : p = PH
  · simp [hp]
  · simp [hp]

theorem TISM_BucketNormalBefore_cons (PH PN p : Nat) (rest : List Nat) (i : Nat) :
    TISM_BucketNormalBefore PH PN (p :: rest) (i + 1) =
      TISM_BucketNormalBefore PH PN rest i + (if ¬p = PH ∧ p = PN then 1 else 0) := by
  unfold TISM_BucketNormalBefore
  rw [List.take_succ_cons, List.filter_cons]
  by_cases hc : ¬p = PH ∧ p = PN
  · obtain ⟨h1, h2⟩ := hc
    subst h2
    simp [h1]
  · simp [hc]

theorem TISM_BucketOtherBefore_cons (PH PN p : Nat) (rest : List Nat) (i : Nat) :
    TISM_BucketOtherBefore PH PN (p :: rest) (i + 1) =
      TISM_BucketOtherBefore PH PN rest i + (if ¬p = PH ∧ ¬p = PN then 1 else 0) := by
  unfold TISM_BucketOtherBefore
  rw [List.take_succ_cons, List.filter_cons]
  by_cases hc : ¬p = PH ∧ ¬p = PN
  · simp [hc]
  · simp [hc]

theorem TISM_SchedulerCountPriorities_eq (PH PN : Nat) (l : List Nat) :
    TISM_SchedulerCountPriorities PH PN l =
      (TISM_BucketHighBefore PH l l.length,
       TISM_BucketNormalBefore PH PN l l.length,
       TISM_BucketOtherBefore PH PN l l.length) := by
  induction l with
  | nil =>
      simp [TISM_SchedulerCountPriorities, TISM_BucketHighBefore,
        TISM_BucketNormalBefore, TISM_BucketOtherBefore]
  | cons p rest ih =>
      have hH := TISM_BucketHighBefore_cons PH p rest rest.length
      have hN := TISM_BucketNormalBefore_cons PH PN p rest rest.length
      have hO := TISM_BucketOtherBefore_cons PH PN p rest rest.length
      simp only [TISM_SchedulerCountPriorities, ih, List.length_cons, hH, hN, hO]
      by_cases hp : p = PH
      · have h2 : ¬(¬p = PH ∧ p = PN) := fun hc => hc.1 hp
        have h3 : ¬(¬p = PH ∧ ¬p = PN) := fun hc => hc.1 hp
        rw [if_pos hp, if_pos hp, if_neg h2, if_neg h3]
        simp
      · by_cases hpn : p = PN
        · have h3 : ¬(¬p = PH ∧ ¬p = PN) := fun hc => hc.2 hpn
          rw [if_neg hp, if_neg hp, if_pos hpn, if_pos ⟨hp, hpn⟩, if_neg h3]
          simp
        · have h2 : ¬(¬p = PH ∧ p = PN) := fun hc => hpn hc.2
          rw [if_neg hp, if_neg hp, if_neg hpn, if_neg h2, if_pos ⟨hp, hpn⟩]
          simp

theorem TISM_SchedulerAssignLoop_getD (PH PN Start OffsetH OffsetN OffsetO : Nat) :
    ∀ (Priorities : List Nat) (i cH cN cO : Nat), i < Priorities.length →
      (TISM_SchedulerAssignLoop PH PN Start OffsetH OffsetN OffsetO Priorities cH cN cO).getD i 0 =
        (if Priorities.getD i 0 = PH then
          Start + (cH + TISM_BucketHighBefore PH Priorities i) * OffsetH
        else if Priorities.getD i 0 = PN then
          Start + OffsetH / 2 + (cN + TISM_BucketNormalBefore PH PN Priorities i) * OffsetN
        else
          Start + OffsetN / 2 + (cO + TISM_BucketOtherBefore PH PN Priorities i) * OffsetO) := by
  intro Priorities
  induction Priorities with
  | nil => intro i cH cN cO h; simp at h
  | cons p rest ih =>
      intro i cH cN cO h
      simp only [TISM_SchedulerAssignLoop]
      by_cases hp : p = PH
      · rw [if_pos hp]
        cases i with
        | zero =>
            rw [List.getD_cons_zero, List.getD_cons_zero, if_pos hp]
            simp [TISM_BucketHighBefore]
        | succ i =>
            have hlen : i < rest.length := by simpa using h
            rw [List.getD_cons_succ, List.getD_cons_succ, ih i (cH + 1) cN cO hlen,
              TISM_BucketHighBefore_cons, TISM_BucketNormalBefore_cons,
              TISM_BucketOtherBefore_cons]
            have h1 : (if p = PH then 1 else 0) = 1 := if_pos hp
            have h2 : (if ¬p = PH ∧ p = PN then 1 else 0) = 0 := by
              rw [if_neg]; intro hc; exact hc.1 hp
            have h3 : (if ¬p = PH ∧ ¬p = PN then 1 else 0) = 0 := by
              rw [if_neg]; intro hc; exact hc.1 hp
            rw [h1, h2, h3]
            split
            · ring
            · split
              · ring
              · ring
      · rw [if_neg hp]
        by_cases hpn : p = PN
        · rw [if_pos hpn]
          cases i with
          | zero =>
              rw [List.getD_cons_zero, List.getD_cons_zero, if_neg hp, if_pos hpn]
              simp [TISM_BucketNormalBefore]
          | succ i =>
              have hlen : i < rest.length := by simpa using h
              rw [List.getD_cons_succ, List.getD_cons_succ, ih i cH (cN + 1) cO hlen,
                TISM_BucketHighBefore_cons, TISM_BucketNormalBefore_cons,
                TISM_BucketOtherBefore_cons]
              have h1 : (if p = PH then 1 else 0) = 0 := if_neg hp
              have h2 : (if ¬p = PH ∧ p = PN then 1 else 0) = 1 := if_pos ⟨hp, hpn⟩
              have h3 : (if ¬p = PH ∧ ¬p = PN then 1 else 0) = 0 := by
                rw [if_neg]; intro hc; exact hc.2 hpn
              rw [h1, h2, h3]
              split
              · ring
              · split
                · ring
                · ring
        · rw [if_neg hpn]
          cases i with
          | zero =>
              rw [List.getD_cons_zero, List.getD_cons_zero, if_neg hp, if_neg hpn]
              simp [TISM_BucketOtherBefore]
          | succ i =>
              have hlen : i < rest.length := by simpa using h
              rw [List.getD_cons_succ, List.getD_cons_succ, ih i cH cN (cO + 1) hlen,
                TISM_BucketHighBefore_cons, TISM_BucketNormalBefore_cons,
                TISM_BucketOtherBefore_cons]
              have h1 : (if p = PH then 1 else 0) = 0 := if_neg hp
              have h2 : (if ¬p = PH ∧ p = PN then 1 else 0) = 0 := by
                rw [if_neg]; intro hc; exact hpn hc.2
              have h3 : (if ¬p = PH ∧ ¬p = PN then 1 else 0) = 1 := if_pos ⟨hp, hpn⟩
              rw [h1, h2, h3]
              split
              · ring
              · split
                · ring
                · ring

/-- C8: at the end of `Init`, the scheduler assigns the `k`-th task of each
priority bucket a first wake-up deadline of `start + k * offset`, where the
bucket's offset is the bucket's canonical priority value divided by the number
of tasks in the bucket; the normal bucket is additionally shifted by half the
high offset and the remaining bucket by half the normal offset.  In
particular, with the priority-high configuration value 2500 µs and three
priority-high tasks, the deadlines are `start`, `start + 833`, `start + 1666`
(offset 2500 / 3 = 833). -/
theorem C8_startup_staggering (PH PN PL Start : Nat) (Priorities : List Nat) (i : Nat)
    (hi : i < Priorities.length) :
    ((TISM_SchedulerAssignWakeUpTimers PH PN PL Start Priorities).getD i 0 =
      (let CountH := TISM_BucketHighBefore PH Priorities Priorities.length
       let CountN := TISM_BucketNormalBefore PH PN Priorities Priorities.length
       let CountO := TISM_BucketOtherBefore PH PN Priorities Priorities.length
       let OffsetH := TISM_SchedulerPriorityOffset PH CountH
       let OffsetN := TISM_SchedulerPriorityOffset PN CountN
       let OffsetO := TISM_SchedulerPriorityOffset PL CountO
       if Priorities.getD i 0 = PH then
         Start + TISM_BucketHighBefore PH Priorities i * OffsetH
       else if Priorities.getD i 0 = PN then
         Start + OffsetH / 2 + TISM_BucketNormalBefore PH PN Priorities i * OffsetN
       else
         Start + OffsetN / 2 + TISM_BucketOtherBefore PH PN Priorities i * OffsetO)) ∧
    (∀ S : Nat,
      TISM_SchedulerAssignWakeUpTimers 2500 5000 10000 S [2500, 2500, 2500] =
        [S, S + 833, S + 1666]) := by
  constructor
  · have hloop := TISM_SchedulerAssignLoop_getD PH PN Start
      (TISM_SchedulerPriorityOffset PH
        (TISM_BucketHighBefore PH Priorities Priorities.length))
      (TISM_SchedulerPriorityOffset PN
        (TISM_BucketNormalBefore PH PN Priorities Priorities.length))
      (TISM_SchedulerPriorityOffset PL
        (TISM_BucketOtherBefore PH PN Priorities Priorities.length))
      Priorities i 0 0 0 hi
    simp only [Nat.zero_add] at hloop
    simpa [TISM_SchedulerAssignWakeUpTimers, TISM_SchedulerCountPriorities_eq] using hloop
  · intro S
    simp [TISM_SchedulerAssignWakeUpTimers, TISM_SchedulerCountPriorities,
      TISM_SchedulerPriorityOffset, TISM_SchedulerAssignLoop]

/-- C8 witness: the third of three priority-high tasks (configuration value
2500 µs) starts at `start + 2 * 833 = start + 1666`. -/
theorem C8_startup_staggering_witness :
    2 < ([2500, 2500, 2500] : List Nat).length ∧
      (TISM_SchedulerAssignWakeUpTimers 2500 5000 10000 1000 [2500, 2500, 2500]).getD 2 0 =
        1000 + 1666 := by
  refine ⟨by decide, ?_⟩
  have h := (C8_startup_staggering 2500 5000 10000 1000 [2500, 2500, 2500] 2 (by decide)).2 1000
  simp [h]

/-! ### TaskManager call-site permission checks (TISM_TaskManager.c lines 55-112)

`TISM_TaskManagerSetTaskAttribute` runs in the requesting task and either
forwards the request as a message to TaskManager's mailbox (via
`TISM_PostmanWriteMessage`) or rejects it.  The task table is abstracted to
the list of task names in id order (`TISM_IsSystemTask` only consults the
name); the returned list contains the `(AttributeToChange, Setting,
TargetTaskID)` triples passed to `TISM_PostmanWriteMessage`, in order. -/

/-- Model of `TISM_IsValidTaskID` from TISM.c (the C `int` argument is a `uint8_t`
value at every call site, hence never negative). -/
def TISM_IsValidTaskID (NumberOfTasks TaskID : Nat) : Bool :=
  TaskID < NumberOfTasks

/-- Model of `TISM_IsSystemTask` from TISM.c:
`strncmp(System.Task[TaskID].TaskName, "TISM_", 5) == 0`, i.e. the first five
characters of the task name are `TISM_`.  Task names are modelled as lists of
characters. -/
def TISM_IsSystemTask (TaskNames : List (List Char)) (TaskID : Nat) : Bool :=
  decide ((TaskNames.getD TaskID []).take 5 = ['T', 'I', 'S', 'M', '_'])

/-- Model of `TISM_TaskManagerSetTaskAttribute` from TISM_TaskManager.c. -/
def TISM_TaskManagerSetTaskAttribute (TaskNames : List (List Char))
    (ThisTaskID TargetTaskID AttributeToChange Setting : Nat) :
    Nat × List (Nat × Nat × Nat) :=
  if TISM_IsValidTaskID TaskNames.length TargetTaskID then
    if AttributeToChange = TISM_SET_TASK_WAKEUPTIME ∨
        AttributeToChange = TISM_SET_TASK_PRIORITY ∨
        AttributeToChange = TISM_SET_TASK_SLEEP then
      if TISM_IsSystemTask TaskNames TargetTaskID then
        if TISM_IsSystemTask TaskNames ThisTaskID then
          (OK, [(AttributeToChange, Setting, TargetTaskID)])
        else
          (ERR_INVALID_OPERATION, [])
      else
        (OK, [(AttributeToChange, Setting, TargetTaskID)])
    else if AttributeToChange = TISM_DEDICATE_TO_TASK then
      if TISM_IsSystemTask TaskNames TargetTaskID then
        (ERR_INVALID_OPERATION, [])
      else
        (OK, [(AttributeToChange, Setting, TargetTaskID)])
    else if AttributeToChange = TISM_WAKE_ALL_TASKS ∨
        AttributeToChange = TISM_SET_TASK_STATE ∨
        AttributeToChange = TISM_SET_TASK_DEBUG then
      (OK, [(AttributeToChange, Setting, TargetTaskID)])
    else
      (ERR_INVALID_OPERATION, [])
  else
    (ERR_TASK_NOT_FOUND, [])

/-- C9: when a non-system task targets a system task with one of the
conditional operations (set-task-priority, set-task-sleep, set-task-wake-up),
the call site returns `ERR_INVALID_OPERATION` and performs no
`TISM_PostmanWriteMessage` call, so no request toward TaskManager's mailbox is
ever written. -/
theorem C9_conditional_ops_rejected (TaskNames : List (List Char))
    (ThisTaskID TargetTaskID AttributeToChange Setting : Nat)
    (hcond : AttributeToChange = TISM_SET_TASK_PRIORITY ∨
      AttributeToChange = TISM_SET_TASK_SLEEP ∨
      AttributeToChange = TISM_SET_TASK_WAKEUPTIME)
    (htarget : TISM_IsSystemTask TaskNames TargetTaskID = true)
    (hcaller : TISM_IsSystemTask TaskNames ThisTaskID = false) :
    TISM_TaskManagerSetTaskAttribute TaskNames ThisTaskID TargetTaskID
      AttributeToChange Setting =
      (if TISM_IsValidTaskID TaskNames.length TargetTaskID then ERR_INVALID_OPERATION
       else ERR_TASK_NOT_FOUND, []) := by
  unfold TISM_TaskManagerSetTaskAttribute
  rcases hcond with h | h | h <;>
    simp [h, htarget, hcaller, TISM_SET_TASK_PRIORITY, TISM_SET_TASK_SLEEP,
      TISM_SET_TASK_WAKEUPTIME, TISM_DEDICATE_TO_TASK, TISM_WAKE_ALL_TASKS,
      TISM_SET_TASK_STATE, TISM_SET_TASK_DEBUG] <;>
    split <;> rfl

/-- A concrete six-task registry: the five system tasks registered by
`TISM_InitializeSystem` followed by one user task. -/
def exampleTaskNames : List (List Char) :=
  [['T', 'I', 'S', 'M', '_', 'P', 'M'],
   ['T', 'I', 'S', 'M', '_', 'I', 'R', 'Q'],
   ['T', 'I', 'S', 'M', '_', 'W', 'D'],
   ['T', 'I', 'S', 'M', '_', 'T', 'M'],
   ['T', 'I', 'S', 'M', '_', 'S', 'W', 'T'],
   ['U', 's', 'e', 'r', 'T', 'a', 's', 'k']]

/-- C9 witness: the user task (id 5) asking to put the TaskManager task
(id 3) to sleep is rejected with `ERR_INVALID_OPERATION` and no message is
written. -/
theorem C9_conditional_ops_rejected_witness :
    (TISM_SET_TASK_SLEEP = TISM_SET_TASK_PRIORITY ∨
      TISM_SET_TASK_SLEEP = TISM_SET_TASK_SLEEP ∨
      TISM_SET_TASK_SLEEP = TISM_SET_TASK_WAKEUPTIME) ∧
    TISM_IsSystemTask exampleTaskNames 3 = true ∧
    TISM_IsSystemTask exampleTaskNames 5 = false ∧
    TISM_TaskManagerSetTaskAttribute exampleTaskNames 5 3 TISM_SET_TASK_SLEEP 1 =
      (ERR_INVALID_OPERATION, []) := by
  refine ⟨Or.inr (Or.inl rfl), rfl, rfl, ?_⟩
  have h := C9_conditional_ops_rejected exampleTaskNames 5 3 TISM_SET_TASK_SLEEP 1
    (Or.inr (Or.inl rfl)) rfl rfl
  simpa using h

/-! ### Software timer (TISM_SoftwareTimer.c)

`TISM_SoftwareTimerSet` (lines 177-190) allocates a new entry with
`NextTimerEventUsec = now + TimerIntervalMsec * 1000` and the next value of
the monotone sequence counter.  The RUN branch of `TISM_SoftwareTimer`
(lines 321-361) scans the entry list against the run timestamp: an entry is
expired iff `NextTimerEventUsec < RunTimestamp`; an expired entry produces one
notification message `(recipient = TaskID, message-type = TimerID, payload =
SequenceNr)`, then a repetitive entry is rescheduled by
`NextTimerEventUsec += TimerIntervalMsec * 1000` while a non-repetitive entry
is removed (`TISM_SoftwareTimerCancelTimerBySequenceNr` deletes the unique
entry carrying that sequence number).  The scan also keeps the minimum
pending deadline (`FirstTimerEventUsec`, initialised to `0xFFFFFFFFFFFFFFFF`);
the C code folds the minimum left-to-right, which is modelled by the
equivalent right fold of `min`.

`TimerIntervalMsec` is a `uint32_t` and the literal `1000` an `int`, so on
both line 186 and line 338 the product `TimerIntervalMsec * 1000` is computed
in 32-bit unsigned arithmetic: it wraps modulo 2^32 for intervals above
4294967 ms, and only the wrapped value is added to the 64-bit deadline. -/

/-- Modulus of C `uint32_t` arithmetic, 2^32. -/
def UINT32_MOD : Nat := 4294967296

structure TISM_SoftwareTimerEntry where
  TaskID : Nat
  TimerID : Nat
  RepetitiveTimer : Bool
  TimerIntervalMsec : Nat
  SequenceNr : Nat
  NextTimerEventUsec : Nat
deriving DecidableEq, Repr, Inhabited

/-- A notification emitted by an expired timer: recipient task, message type
(= the timer id) and payload (= the sequence number), as passed to
`TISM_PostmanTaskWriteMessage` on line 334. -/
structure TISM_SoftwareTimerNotification where
  RecipientTaskID : Nat
  MessageType : Nat
  Message : Nat
deriving DecidableEq, Repr

/-- Model of `TISM_SoftwareTimerSet` (lines 177-190), restricted to the entry it
builds: the caller's task id, the timer id, the repetition flag, the interval
and the freshly incremented sequence counter.  The initial deadline on line
186 adds the `uint32_t` product `TimerIntervalMsec * 1000`, which wraps
modulo 2^32. -/
def TISM_SoftwareTimerSet (TaskID TimerID : Nat) (RepetitiveTimer : Bool)
    (TimerIntervalMsec Now SequenceCounter : Nat) : TISM_SoftwareTimerEntry :=
  { TaskID := TaskID, TimerID := TimerID, RepetitiveTimer := RepetitiveTimer,
    TimerIntervalMsec := TimerIntervalMsec,
    SequenceNr := SequenceCounter + 1,
    NextTimerEventUsec := Now + TimerIntervalMsec * 1000 % UINT32_MOD }

/-- The expiry scan of lines 321-361: returns the surviving entry list, the
emitted notifications (in list order) and the minimum pending deadline.  The
reschedule on line 338 adds the `uint32_t` product `TimerIntervalMsec * 1000`,
which wraps modulo 2^32. -/
def TISM_SoftwareTimerScan (RunTimestamp : Nat) :
    List TISM_SoftwareTimerEntry →
      List TISM_SoftwareTimerEntry × List TISM_SoftwareTimerNotification × Nat
  | [] => ([], [], 0xFFFFFFFFFFFFFFFF)
  | e :: rest =>
    let scanned := TISM_SoftwareTimerScan RunTimestamp rest
    if e.NextTimerEventUsec < RunTimestamp then
      let note : TISM_SoftwareTimerNotification := ⟨e.TaskID, e.TimerID, e.SequenceNr⟩
      if e.RepetitiveTimer then
        let Rescheduled :=
          { e with NextTimerEventUsec :=
              e.NextTimerEventUsec + e.TimerIntervalMsec * 1000 % UINT32_MOD }
        (Rescheduled :: scanned.1, note :: scanned.2.1,
          min Rescheduled.NextTimerEventUsec scanned.2.2)
      else
        (scanned.1, note :: scanned.2.1, scanned.2.2)
    else
      (e :: scanned.1, scanned.2.1, min e.NextTimerEventUsec scanned.2.2)

/-- Fold of successive expiry scans at the given run timestamps (each run of
the timer task performs one scan). -/
def TISM_SoftwareTimerScanTimes (Timestamps : List Nat)
    (Entries : List TISM_SoftwareTimerEntry) : List TISM_SoftwareTimerEntry :=
  Timestamps.foldl (fun acc t => (TISM_SoftwareTimerScan t acc).1) Entries

/-- Every entry surviving a scan carries the sequence number of an input
entry. -/
theorem TISM_SoftwareTimerScan_entry_seq (RunTimestamp : Nat)
    (l : List TISM_SoftwareTimerEntry) :
    ∀ x ∈ (TISM_SoftwareTimerScan RunTimestamp l).1,
      ∃ y ∈ l, x.SequenceNr = y.SequenceNr := by
  induction l with
  | nil => intro x hx; simp [TISM_SoftwareTimerScan] at hx
  | cons e rest ih =>
      intro x hx
      simp only [TISM_SoftwareTimerScan] at hx
      by_cases hexp : e.NextTimerEventUsec < RunTimestamp
      · by_cases hrep : e.RepetitiveTimer
        · rw [if_pos hexp, if_pos hrep] at hx
          rcases List.mem_cons.mp hx with hx | hx
          · exact ⟨e, List.mem_cons_self e rest, by rw [hx]⟩
          · obtain ⟨y, hy, hxy⟩ := ih x hx
            exact ⟨y, List.mem_cons_of_mem e hy, hxy⟩
        · rw [if_pos hexp, if_neg hrep] at hx
          obtain ⟨y, hy, hxy⟩ := ih x hx
          exact ⟨y, List.mem_cons_of_mem e hy, hxy⟩
      · rw [if_neg hexp] at hx
        rcases List.mem_cons.mp hx with hx | hx
        · exact ⟨e, List.mem_cons_self e rest, by rw [hx]⟩
        · obtain ⟨y, hy, hxy⟩ := ih x hx
          exact ⟨y, List.mem_cons_of_mem e hy, hxy⟩

/-- Every notification emitted by a scan carries the sequence number of an
input entry. -/
theorem TISM_SoftwareTimerScan_note_seq (RunTimestamp : Nat)
    (l : List TISM_SoftwareTimerEntry) :
    ∀ m ∈ (TISM_SoftwareTimerScan RunTimestamp l).2.1,
      ∃ y ∈ l, m.Message = y.SequenceNr := by
  induction l with
  | nil => intro m hm; simp [TISM_SoftwareTimerScan] at hm
  | cons e rest ih =>
      intro m hm
      simp only [TISM_SoftwareTimerScan] at hm
      by_cases hexp : e.NextTimerEventUsec < RunTimestamp
      · by_cases hrep : e.RepetitiveTimer
        · rw [if_pos hexp, if_pos hrep] at hm
          rcases List.mem_cons.mp hm with hm | hm
          · exact ⟨e, List.mem_cons_self e rest, by rw [hm]⟩
          · obtain ⟨y, hy, hxy⟩ := ih m hm
            exact ⟨y, List.mem_cons_of_mem e hy, hxy⟩
        · rw [if_pos hexp, if_neg hrep] at hm
          rcases List.mem_cons.mp hm with hm | hm
          · exact ⟨e, List.mem_cons_self e rest, by rw [hm]⟩
          · obtain ⟨y, hy, hxy⟩ := ih m hm
            exact ⟨y, List.mem_cons_of_mem e hy, hxy⟩
      · rw [if_neg hexp] at hm
        obtain ⟨y, hy, hxy⟩ := ih m hm
        exact ⟨y, List.mem_cons_of_mem e hy, hxy⟩

/-- Auxiliary for C6, repeating half: iterating expiry scans on a single
repeating entry advances the deadline by exactly one step per expiring scan,
the step being the wrapped `uint32_t` product `TimerIntervalMsec * 1000`, so
the deadline runs through `start, start + step, start + 2·step, …`. -/
theorem TISM_SoftwareTimer_repeating_progression (e : TISM_SoftwareTimerEntry)
    (Timestamps : List Nat) (hrep : e.RepetitiveTimer = true)
    (hts : ∀ k, k < Timestamps.length →
      e.NextTimerEventUsec + k * (e.TimerIntervalMsec * 1000 % UINT32_MOD) <
        Timestamps.getD k 0) :
    TISM_SoftwareTimerScanTimes Timestamps [e] =
      [{ e with NextTimerEventUsec :=
          e.NextTimerEventUsec +
            Timestamps.length * (e.TimerIntervalMsec * 1000 % UINT32_MOD) }] := by
  induction Timestamps generalizing e with
  | nil => simp [TISM_SoftwareTimerScanTimes]
  | cons t ts ih =>
      have hexp : e.NextTimerEventUsec < t := by
        have := hts 0 (by simp)
        simpa using this
      have hstep : (TISM_SoftwareTimerScan t [e]).1 =
          [{ e with NextTimerEventUsec :=
              e.NextTimerEventUsec + e.TimerIntervalMsec * 1000 % UINT32_MOD }] := by
        simp only [TISM_SoftwareTimerScan]
        rw [if_pos hexp, if_pos hrep]
      have hrec := ih { e with NextTimerEventUsec :=
          e.NextTimerEventUsec + e.TimerIntervalMsec * 1000 % UINT32_MOD } hrep ?_
      · calc TISM_SoftwareTimerScanTimes (t :: ts) [e]
            = TISM_SoftwareTimerScanTimes ts (TISM_SoftwareTimerScan t [e]).1 := rfl
          _ = TISM_SoftwareTimerScanTimes ts
                [{ e with NextTimerEventUsec :=
                    e.NextTimerEventUsec + e.TimerIntervalMsec * 1000 % UINT32_MOD }] := by
                rw [hstep]
          _ = [{ e with NextTimerEventUsec :=
                  e.NextTimerEventUsec +
                    (ts.length + 1) * (e.TimerIntervalMsec * 1000 % UINT32_MOD) }] := by
                rw [hrec]
                simp only [List.cons.injEq, and_true]
                congr 1
                ring
          _ = [{ e with NextTimerEventUsec :=
                  e.NextTimerEventUsec +
                    (t :: ts).length * (e.TimerIntervalMsec * 1000 % UINT32_MOD) }] := by
                simp
      · intro k hk
        have := hts (k + 1) (by simpa using Nat.succ_lt_succ hk)
        simp only [List.getD_cons_succ] at this
        calc e.NextTimerEventUsec + e.TimerIntervalMsec * 1000 % UINT32_MOD +
              k * (e.TimerIntervalMsec * 1000 % UINT32_MOD)
            = e.NextTimerEventUsec +
                (k + 1) * (e.TimerIntervalMsec * 1000 % UINT32_MOD) := by ring
          _ < ts.getD k 0 := this

/-- Auxiliary for C6, one-shot half: an expired non-repeating entry yields
exactly one notification carrying its sequence number and disappears from the
entry list (sequence numbers are pairwise distinct, as they come from the
monotone `SequenceCounter`). -/
theorem TISM_SoftwareTimer_oneshot_once (RunTimestamp : Nat)
    (l : List TISM_SoftwareTimerEntry) (e : TISM_SoftwareTimerEntry)
    (hmem : e ∈ l) (hexp : e.NextTimerEventUsec < RunTimestamp)
    (hrep : e.RepetitiveTimer = false)
    (huniq : l.Pairwise (fun a b => a.SequenceNr ≠ b.SequenceNr)) :
    ((TISM_SoftwareTimerScan RunTimestamp l).2.1.filter
        (fun m => decide (m.Message = e.SequenceNr))).length = 1 ∧
      ∀ x ∈ (TISM_SoftwareTimerScan RunTimestamp l).1, x.SequenceNr ≠ e.SequenceNr := by
  induction l with
  | nil => simp at hmem
  | cons a rest ih =>
      rcases List.mem_cons.mp hmem with hae | hmem'
      · subst hae
        have hothers : ∀ y ∈ rest, e.SequenceNr ≠ y.SequenceNr :=
          (List.pairwise_cons.mp huniq).1
        have hnotes : ∀ m ∈ (TISM_SoftwareTimerScan RunTimestamp rest).2.1,
            ¬ m.Message = e.SequenceNr := by
          intro m hm hcontra
          obtain ⟨y, hy, hxy⟩ := TISM_SoftwareTimerScan_note_seq RunTimestamp rest m hm
          exact hothers y hy (hcontra.symm.trans hxy)
        have hentries : ∀ x ∈ (TISM_SoftwareTimerScan RunTimestamp rest).1,
            x.SequenceNr ≠ e.SequenceNr := by
          intro x hx hcontra
          obtain ⟨y, hy, hxy⟩ := TISM_SoftwareTimerScan_entry_seq RunTimestamp rest x hx
          exact hothers y hy (hcontra.symm.trans hxy)
        have hn : (TISM_SoftwareTimerScan RunTimestamp rest).2.1.filter
            (fun m => decide (m.Message = e.SequenceNr)) = [] :=
          List.filter_eq_nil_iff.mpr (by intro m hm; simpa using hnotes m hm)
        constructor
        · simp [TISM_SoftwareTimerScan, hexp, hrep, List.filter_cons, hn]
        · intro x hx
          simp only [TISM_SoftwareTimerScan] at hx
          rw [if_pos hexp, if_neg (by simp [hrep])] at hx
          exact hentries x hx
      · have huniq' : rest.Pairwise (fun a b => a.SequenceNr ≠ b.SequenceNr) :=
          (List.pairwise_cons.mp huniq).2
        have hane : a.SequenceNr ≠ e.SequenceNr :=
          (List.pairwise_cons.mp huniq).1 e hmem'
        obtain ⟨ihnotes, ihentries⟩ := ih hmem' huniq'
        simp only [TISM_SoftwareTimerScan]
        by_cases haexp : a.NextTimerEventUsec < RunTimestamp
        · by_cases harep : a.RepetitiveTimer
          · rw [if_pos haexp, if_pos harep]
            constructor
            · rw [List.filter_cons]
              simp only [decide_eq_true_eq]
              rw [if_neg (by simpa using hane)]
              exact ihnotes
            · intro x hx
              rcases List.mem_cons.mp hx with hx | hx
              · rw [hx]; exact hane
              · exact ihentries x hx
          · rw [if_pos haexp, if_neg harep]
            constructor
            · rw [List.filter_cons]
              simp only [decide_eq_true_eq]
              rw [if_neg (by simpa using hane)]
              exact ihnotes
            · exact ihentries
        · rw [if_neg haexp]
          constructor
          · exact ihnotes
          · intro x hx
            rcases List.mem_cons.mp hx with hx | hx
            · rw [hx]; exact hane
            · exact ihentries x hx

/-- C6 counterexample: the `uint32_t` product wraps.  A repeating timer with
interval 4294968 ms (just above 2^32 / 1000) registered at time 0 gets the
initial deadline `4294968000 mod 2^32 = 704` µs instead of 4294968000 µs, and
an expiry scan likewise advances the deadline by only 704 µs — the next-fire
sequence is `start, start + 704, start + 1408, …`, not
`start, start + I, start + 2I, …` as claimed. -/
theorem C6_interval_wrap_counterexample :
    (TISM_SoftwareTimerSet 3 9 true 4294968 0 0).NextTimerEventUsec = 704 ∧
    (TISM_SoftwareTimerScan 1 [⟨3, 9, true, 4294968, 1, 0⟩]).1 =
      [⟨3, 9, true, 4294968, 1, 704⟩] ∧
    (704 : Nat) ≠ 4294968 * 1000 := by
  refine ⟨?_, ?_, ?_⟩
  · decide
  · decide
  · decide

/-- C6 (amended): for a repeating timer with interval `I` ms, successive
expiry scans advance the next-fire deadline by the fixed step
`(I * 1000) mod 2^32` µs — equal to `1000·I` exactly when `I ≤ 4294967` ms,
wrapped for larger intervals because lines 186 and 338 compute the product in
`uint32_t` — so the deadlines run through `start, start + step,
start + 2·step, …`; for a non-repeating timer, exactly one notification is
emitted to the owning task and the entry is then removed from the timer
list. -/
theorem C6_timer_faithfulness :
    (∀ (e : TISM_SoftwareTimerEntry) (Timestamps : List Nat),
      e.RepetitiveTimer = true →
      (∀ k, k < Timestamps.length →
        e.NextTimerEventUsec + k * (e.TimerIntervalMsec * 1000 % UINT32_MOD) <
          Timestamps.getD k 0) →
      TISM_SoftwareTimerScanTimes Timestamps [e] =
        [{ e with NextTimerEventUsec :=
            e.NextTimerEventUsec +
              Timestamps.length * (e.TimerIntervalMsec * 1000 % UINT32_MOD) }]) ∧
    (∀ (RunTimestamp : Nat) (l : List TISM_SoftwareTimerEntry)
      (e : TISM_SoftwareTimerEntry), e ∈ l →
      e.NextTimerEventUsec < RunTimestamp → e.RepetitiveTimer = false →
      l.Pairwise (fun a b => a.SequenceNr ≠ b.SequenceNr) →
      ((TISM_SoftwareTimerScan RunTimestamp l).2.1.filter
          (fun m => decide (m.Message = e.SequenceNr))).length = 1 ∧
        ∀ x ∈ (TISM_SoftwareTimerScan RunTimestamp l).1,
          x.SequenceNr ≠ e.SequenceNr) :=
  ⟨TISM_SoftwareTimer_repeating_progression,
   TISM_SoftwareTimer_oneshot_once⟩

/-- C6 witness: a repeating 100 ms timer (step `100000 mod 2^32 = 100000` µs,
no wrap) set at 0 expires at scans taken at 100001, 200001 and 300001 µs and
ends with deadline 300000 µs; a one-shot entry with sequence number 7 in a
two-entry list is notified once and removed. -/
theorem C6_timer_faithfulness_witness :
    (TISM_SoftwareTimerScanTimes [100001, 200001, 300001]
        [⟨3, 9, true, 100, 1, 0⟩] = [⟨3, 9, true, 100, 1, 300000⟩]) ∧
    ((TISM_SoftwareTimerScan 500 [⟨3, 9, false, 100, 7, 400⟩, ⟨4, 2, true, 5, 8, 900⟩]).2.1.filter
        (fun m => decide (m.Message = 7))).length = 1 := by
  constructor
  · have h := C6_timer_faithfulness.1 ⟨3, 9, true, 100, 1, 0⟩ [100001, 200001, 300001]
      rfl (by decide)
    simpa using h
  · have h := (C6_timer_faithfulness.2 500
      [⟨3, 9, false, 100, 7, 400⟩, ⟨4, 2, true, 5, 8, 900⟩] ⟨3, 9, false, 100, 7, 400⟩
      (by simp) (by decide) rfl (by simp)).1
    simpa using h

/-! ### Interrupt demultiplexer: anti-bounce (TISM_IRQHandler.c lines 128-150)

For each captured interrupt the demux walks the GPIO's subscription list.  A
subscription forwards the interrupt iff the captured event mask intersects the
subscription's mask and either no anti-bounce window is set or the capture
timestamp exceeds the last forwarded timestamp plus the window; on a forward,
the last-forwarded timestamp is updated to the capture timestamp. -/

structure TISM_IRQHandlerSubscription where
  TaskID : Nat
  Events : Nat
  AntiBounceTimeout : Nat
  LastSuccessfullInterrupt : Nat
deriving DecidableEq, Repr

/-- Handling of one captured interrupt by one subscription (lines 133-148):
returns whether a message was forwarded to the subscriber, and the updated
subscription state. -/
def TISM_IRQHandlerProcessCapture (Sub : TISM_IRQHandlerSubscription)
    (CapturedMask CaptureTimestamp : Nat) : Bool × TISM_IRQHandlerSubscription :=
  if CapturedMask &&& Sub.Events ≠ 0 then
    if Sub.AntiBounceTimeout = 0 ∨
        CaptureTimestamp > Sub.LastSuccessfullInterrupt + Sub.AntiBounceTimeout then
      (true, { Sub with LastSuccessfullInterrupt := CaptureTimestamp })
    else
      (false, Sub)
  else
    (false, Sub)

/-- Two consecutive captured interrupts processed by the same subscription:
the pair of forward decisions and the final subscription state. -/
def TISM_IRQHandlerProcessPair (Sub : TISM_IRQHandlerSubscription)
    (Mask1 Ts1 Mask2 Ts2 : Nat) : Bool × Bool × TISM_IRQHandlerSubscription :=
  let r1 := TISM_IRQHandlerProcessCapture Sub Mask1 Ts1
  let r2 := TISM_IRQHandlerProcessCapture r1.2 Mask2 Ts2
  (r1.1, r2.1, r2.2)

/-- C7 counterexample: subscription with anti-bounce window 100 µs and
last-forwarded timestamp 0; two matching interrupts at 50 µs and 120 µs are
70 µs (< 100 µs) apart, yet the first is suppressed (50 is not beyond
0 + 100) and the second alone is forwarded — the forwarded one is the second
of the pair, contradicting the claim. -/
theorem C7_antibounce_counterexample :
    (120 : Nat) - 50 < 100 ∧
      TISM_IRQHandlerProcessPair ⟨2, 4, 100, 0⟩ 4 50 4 120 =
        (false, true, ⟨2, 4, 100, 120⟩) := by
  constructor
  · decide
  · decide

/-- C7 (amended): if additionally the first of the two interrupts itself
passes the anti-bounce check (its timestamp exceeds the subscription's
last-forwarded timestamp plus the window `W`), then of two matching captures
less than `W` apart exactly one message is forwarded, namely the first; the
second is suppressed.  Without that extra premise the first capture may be
suppressed and the second alone forwarded. -/
theorem C7_antibounce_window (Sub : TISM_IRQHandlerSubscription) (Mask1 Ts1 Mask2 Ts2 : Nat)
    (hm1 : Mask1 &&& Sub.Events ≠ 0) (hm2 : Mask2 &&& Sub.Events ≠ 0)
    (hW : 0 < Sub.AntiBounceTimeout)
    (hfirst : Sub.LastSuccessfullInterrupt + Sub.AntiBounceTimeout < Ts1)
    (horder : Ts1 ≤ Ts2) (hclose : Ts2 - Ts1 < Sub.AntiBounceTimeout) :
    (TISM_IRQHandlerProcessPair Sub Mask1 Ts1 Mask2 Ts2).1 = true ∧
      (TISM_IRQHandlerProcessPair Sub Mask1 Ts1 Mask2 Ts2).2.1 = false := by
  have h1 : TISM_IRQHandlerProcessCapture Sub Mask1 Ts1 =
      (true, { Sub with LastSuccessfullInterrupt := Ts1 }) := by
    unfold TISM_IRQHandlerProcessCapture
    rw [if_pos hm1, if_pos (Or.inr hfirst)]
  have h2 : TISM_IRQHandlerProcessCapture
      { Sub with LastSuccessfullInterrupt := Ts1 } Mask2 Ts2 =
      (false, { Sub with LastSuccessfullInterrupt := Ts1 }) := by
    unfold TISM_IRQHandlerProcessCapture
    rw [if_pos (by simpa using hm2), if_neg ?_]
    intro hc
    rcases hc with hc | hc
    · simp only at hc
      omega
    · simp only [gt_iff_lt] at hc
      omega
  constructor
  · simp [TISM_IRQHandlerProcessPair, h1]
  · simp [TISM_IRQHandlerProcessPair, h1, h2]

/-- C7 witness: the amended statement at a concrete subscription (window 100,
last forwarded 0) and captures at 150 µs and 210 µs. -/
theorem C7_antibounce_window_witness :
    ((4 : Nat) &&& 4 ≠ 0) ∧ (0 : Nat) < 100 ∧ (0 : Nat) + 100 < 150 ∧ (150 : Nat) ≤ 210 ∧
      (210 : Nat) - 150 < 100 ∧
      (TISM_IRQHandlerProcessPair ⟨2, 4, 100, 0⟩ 4 150 4 210).1 = true ∧
      (TISM_IRQHandlerProcessPair ⟨2, 4, 100, 0⟩ 4 150 4 210).2.1 = false := by
  have h := C7_antibounce_window ⟨2, 4, 100, 0⟩ 4 150 4 210
    (by decide) (by decide) (by decide) (by decide) (by decide) (by decide)
  exact ⟨by decide, by decide, by decide, by decide, by decide, h.1, h.2⟩

/-! ### Postman (TISM_Postman.c, RUN branch)

The RUN branch of `TISM_Postman` first serves its own inbound mailbox (PING
replies, lines 76-93, counted against the shared per-run budget
`MessageCounter < MAX_MESSAGES`), then drains the two per-core outbound queues
into the recipients' inbound mailboxes (lines 96-124), then enqueues one
`TISM_SET_TASK_SLEEP(false)` request into TaskManager's inbound mailbox for
every recipient whose received-flag is set, clearing the flag (lines
127-134), and finally stores `true` into its own task record's sleeping flag
(line 137, outside this model, which tracks only the messaging state).

The per-record delivery condition of lines 105-107 is
`RecipientTaskID >= 0 && RecipientTaskID < NumberOfTasks && !Write(...)`:
the first conjunct is always true for a `uint8_t`; the `Write` call (and its
side effect on the recipient's mailbox) happens only when the recipient id is
valid, by short-circuit evaluation.  The warning branch is taken exactly when
the whole condition is true, i.e. only for a *valid* recipient whose mailbox
is full; an *invalid* recipient falls into the `else` branch, which stores
`true` into `TaskReceivedMessage[RecipientTaskID]` — for ids at or beyond
`MAX_TASKS` (such as 255) that C store is out of bounds; `List.set` out of
range is a no-op here — and logs nothing.  `Warnings` records the
`(SenderTaskID, RecipientTaskID)` pairs printed to STDERR on line 110. -/

structure TISM_PostmanSystem where
  NumberOfTasks : Nat
  TISM_PostmanTaskID : Nat
  TISM_TaskManagerTaskID : Nat
  TISM_IRQHandlerTaskID : Nat
  InboundMessageQueue : List TISM_CircularBuffer
  OutboundMessageQueue : List TISM_CircularBuffer
  TaskReceivedMessage : List Bool
  Warnings : List (Nat × Nat)
deriving DecidableEq, Repr, Inhabited

/-- The state produced by `TISM_CircularBufferInit`. -/
def TISM_CircularBufferInitialized : TISM_CircularBuffer :=
  { Message := List.replicate MAX_MESSAGES default, Head := 0, Tail := 0 }

/-- TaskManager's inbound mailbox, the target of the wake-up requests. -/
def TISM_PostmanTaskManagerInbound (sys : TISM_PostmanSystem) : TISM_CircularBuffer :=
  sys.InboundMessageQueue.getD sys.TISM_TaskManagerTaskID default

/-- Handling of one record taken from an outbound queue (the body of lines
104-118, before the record is deleted from the queue). -/
def TISM_PostmanHandleOutboundRecord (Now : Nat) (sys : TISM_PostmanSystem)
    (MessageToProcess : TISM_Message) : TISM_PostmanSystem :=
  if MessageToProcess.RecipientTaskID < sys.NumberOfTasks then
    let Delivery := TISM_CircularBufferWriteWithTimestamp
      (sys.InboundMessageQueue.getD MessageToProcess.RecipientTaskID default)
      MessageToProcess.SenderTaskID MessageToProcess.RecipientTaskID
      MessageToProcess.MessageType MessageToProcess.Message
      MessageToProcess.Specification Now
    if Delivery.2 then
      { sys with
          InboundMessageQueue :=
            sys.InboundMessageQueue.set MessageToProcess.RecipientTaskID Delivery.1,
          TaskReceivedMessage :=
            if MessageToProcess.RecipientTaskID ≠ sys.TISM_TaskManagerTaskID then
              sys.TaskReceivedMessage.set MessageToProcess.RecipientTaskID true
            else sys.TaskReceivedMessage }
    else
      { sys with
          Warnings := sys.Warnings ++
            [(MessageToProcess.SenderTaskID, MessageToProcess.RecipientTaskID)] }
  else
    { sys with
        TaskReceivedMessage :=
          if MessageToProcess.RecipientTaskID ≠ sys.TISM_TaskManagerTaskID then
            sys.TaskReceivedMessage.set MessageToProcess.RecipientTaskID true
          else sys.TaskReceivedMessage }

/-- The `while` loop of lines 98-123 for one core's outbound queue.  The C
loop condition is `messages waiting > 0 && MessageCounter < MAX_MESSAGES`;
the counter is modelled by the remaining budget
`Fuel = MAX_MESSAGES - MessageCounter`, which the function returns for the
next queue. -/
def TISM_PostmanDrainQueue (Now CoreCounter : Nat) :
    Nat → TISM_PostmanSystem → TISM_PostmanSystem × Nat
  | 0, sys => (sys, 0)
  | Fuel + 1, sys =>
    if 0 < TISM_CircularBufferMessagesWaiting
        (sys.OutboundMessageQueue.getD CoreCounter default) then
      match TISM_CircularBufferRead (sys.OutboundMessageQueue.getD CoreCounter default) with
      | none => (sys, Fuel + 1)
      | some MessageToProcess =>
        let sys1 := TISM_PostmanHandleOutboundRecord Now sys MessageToProcess
        let sys2 := { sys1 with
            OutboundMessageQueue := sys1.OutboundMessageQueue.set CoreCounter
              (TISM_CircularBufferDelete
                (sys1.OutboundMessageQueue.getD CoreCounter default)) }
        TISM_PostmanDrainQueue Now CoreCounter Fuel sys2
    else (sys, Fuel + 1)

/-- The `for` loop over both cores (lines 96-124). -/
def TISM_PostmanDrainAllQueues (Now : Nat) (sys : TISM_PostmanSystem)
    (RemainingBudget : Nat) : TISM_PostmanSystem × Nat :=
  (List.range MAX_CORES).foldl
    (fun acc CoreCounter => TISM_PostmanDrainQueue Now CoreCounter acc.2 acc.1)
    (sys, RemainingBudget)

/-- One iteration of the wake-up loop (lines 127-134): when task `counter`
has its received-flag set, write a `TISM_SET_TASK_SLEEP` request with payload
`false` (0) and specification `counter` into TaskManager's inbound mailbox
(the write result is ignored, as in the C) and clear the flag. -/
def TISM_PostmanWakeStep (Now : Nat) (sys : TISM_PostmanSystem) (counter : Nat) :
    TISM_PostmanSystem :=
  if sys.TaskReceivedMessage.getD counter false then
    let Delivery := TISM_CircularBufferWriteWithTimestamp
      (TISM_PostmanTaskManagerInbound sys)
      sys.TISM_PostmanTaskID sys.TISM_TaskManagerTaskID TISM_SET_TASK_SLEEP 0 counter Now
    { sys with
        InboundMessageQueue :=
          sys.InboundMessageQueue.set sys.TISM_TaskManagerTaskID Delivery.1,
        TaskReceivedMessage := sys.TaskReceivedMessage.set counter false }
  else sys

/-- The wake-up loop over all task ids (lines 127-134). -/
def TISM_PostmanWakeLoop (Now : Nat) (sys : TISM_PostmanSystem) : TISM_PostmanSystem :=
  (List.range sys.NumberOfTasks).foldl (TISM_PostmanWakeStep Now) sys

/-- The outbound phase of one Postman run: drain both outbound queues, then
send the wake-up requests.  `MessageCounter` is the number of messages already
processed from Postman's own inbound mailbox in lines 76-93. -/
def TISM_PostmanRunOutboundPhase (Now : Nat) (sys : TISM_PostmanSystem)
    (MessageCounter : Nat) : TISM_PostmanSystem :=
  TISM_PostmanWakeLoop Now
    (TISM_PostmanDrainAllQueues Now sys (MAX_MESSAGES - MessageCounter)).1

/-- The task function `TISM_Postman` returns `OK` on every path of its RUN branch (line 153);
delivery failures are never propagated. -/
def TISM_PostmanReturnValue : Nat := OK

/-- A five-task system (ids as assigned by `TISM_InitializeSystem`: Postman 0,
IRQHandler 1, Watchdog 2, TaskManager 3, SoftwareTimer 4) whose core-0
outbound queue holds one record addressed to the invalid task id 255. -/
def examplePostmanSystemInvalid : TISM_PostmanSystem :=
  { NumberOfTasks := 5, TISM_PostmanTaskID := 0, TISM_TaskManagerTaskID := 3,
    TISM_IRQHandlerTaskID := 1,
    InboundMessageQueue := List.replicate 5 TISM_CircularBufferInitialized,
    OutboundMessageQueue :=
      [(TISM_CircularBufferWriteWithTimestamp TISM_CircularBufferInitialized
          4 255 60 11 22 500).1,
       TISM_CircularBufferInitialized],
    TaskReceivedMessage := List.replicate MAX_TASKS false,
    Warnings := [] }

/-- C5: evaluation of the Postman outbound phase at the failing input — one
queued record whose recipient id is 255 (invalid, beyond `NumberOfTasks`).
The record is removed from the outbound queue and the run returns `OK` (these
two parts of the claim hold), but the warning log stays empty and nothing is
delivered, contradicting the claimed logged warning; the C additionally
stores `true` into `TaskReceivedMessage[255]`, an out-of-bounds write. -/
theorem C5_invalid_recipient_divergence :
    (TISM_PostmanRunOutboundPhase 1000 examplePostmanSystemInvalid 0).Warnings = [] ∧
    TISM_CircularBufferMessagesWaiting
      ((TISM_PostmanRunOutboundPhase 1000 examplePostmanSystemInvalid 0).OutboundMessageQueue.getD
        0 default) = 0 ∧
    (TISM_PostmanRunOutboundPhase 1000 examplePostmanSystemInvalid 0).InboundMessageQueue =
      examplePostmanSystemInvalid.InboundMessageQueue ∧
    TISM_PostmanReturnValue = OK := by
  refine ⟨?_, ?_, ?_, rfl⟩
  · decide
  · decide
  · decide

/-- The same five-task system with one queued record addressed to the IRQ
demultiplexer (task id 1). -/
def examplePostmanSystemIRQ : TISM_PostmanSystem :=
  { NumberOfTasks := 5, TISM_PostmanTaskID := 0, TISM_TaskManagerTaskID := 3,
    TISM_IRQHandlerTaskID := 1,
    InboundMessageQueue := List.replicate 5 TISM_CircularBufferInitialized,
    OutboundMessageQueue :=
      [(TISM_CircularBufferWriteWithTimestamp TISM_CircularBufferInitialized
          4 1 7 11 22 500).1,
       TISM_CircularBufferInitialized],
    TaskReceivedMessage := List.replicate MAX_TASKS false,
    Warnings := [] }

/-- C2 counterexample: after a Postman run that delivers one message to the
IRQ demultiplexer (task id 1), TaskManager's inbound mailbox contains a
set-sleep(false) request whose specification field names the IRQ
demultiplexer — the code excludes only TaskManager (line 116), so a wake-up
request *is* enqueued for the IRQ demux, contrary to the claim (and to the
comment on line 115). -/
theorem C2_irq_demux_wakeup_counterexample :
    examplePostmanSystemIRQ.TISM_IRQHandlerTaskID = 1 ∧
    TISM_CircularBufferRead
      ((TISM_PostmanRunOutboundPhase 1000 examplePostmanSystemIRQ 0).InboundMessageQueue.getD
        3 default) =
      some ⟨0, 3, TISM_SET_TASK_SLEEP, 0, 1, 1000⟩ := by
  refine ⟨rfl, ?_⟩
  decide

/-! ### Logical contents of a circular buffer

The unread records of a buffer, oldest first: the slice from `Tail` to `Head`
(wrapping at `MAX_MESSAGES`).  A successful `write` appends one record to the
contents; this is the specification used to reason about the wake-up
requests Postman enqueues into TaskManager's mailbox. -/

def TISM_CircularBufferContents (Buffer : TISM_CircularBuffer) : List TISM_Message :=
  if Buffer.Tail ≤ Buffer.Head then
    (Buffer.Message.drop Buffer.Tail).take (Buffer.Head - Buffer.Tail)
  else
    Buffer.Message.drop Buffer.Tail ++ Buffer.Message.take Buffer.Head

theorem TISM_CircularBufferContents_length (Buffer : TISM_CircularBuffer)
    (hlen : Buffer.Message.length = MAX_MESSAGES)
    (hH : Buffer.Head < MAX_MESSAGES) (hT : Buffer.Tail < MAX_MESSAGES) :
    (TISM_CircularBufferContents Buffer).length =
      TISM_CircularBufferMessagesWaiting Buffer := by
  obtain ⟨L, H, T⟩ := Buffer
  dsimp only at hlen hH hT
  unfold TISM_CircularBufferContents TISM_CircularBufferMessagesWaiting
  dsimp only
  by_cases hle : T ≤ H
  · rw [if_pos hle]
    simp only [List.length_take, List.length_drop, hlen]
    split_ifs <;> omega
  · rw [if_neg hle]
    simp only [List.length_append, List.length_take, List.length_drop, hlen]
    split_ifs <;> omega

theorem TISM_CircularBufferWriteWithTimestamp_spec (Buffer : TISM_CircularBuffer)
    (SenderTaskID RecipientTaskID MessageType Message Specification Timestamp : Nat)
    (hlen : Buffer.Message.length = MAX_MESSAGES)
    (hH : Buffer.Head < MAX_MESSAGES) (hT : Buffer.Tail < MAX_MESSAGES)
    (hslots : 0 < TISM_CircularBufferSlotsAvailable Buffer) :
    (TISM_CircularBufferWriteWithTimestamp Buffer SenderTaskID RecipientTaskID
        MessageType Message Specification Timestamp).2 = true ∧
    (TISM_CircularBufferWriteWithTimestamp Buffer SenderTaskID RecipientTaskID
        MessageType Message Specification Timestamp).1.Tail = Buffer.Tail ∧
    (TISM_CircularBufferWriteWithTimestamp Buffer SenderTaskID RecipientTaskID
        MessageType Message Specification Timestamp).1.Head < MAX_MESSAGES ∧
    (TISM_CircularBufferWriteWithTimestamp Buffer SenderTaskID RecipientTaskID
        MessageType Message Specification Timestamp).1.Message.length = MAX_MESSAGES ∧
    TISM_CircularBufferContents (TISM_CircularBufferWriteWithTimestamp Buffer
        SenderTaskID RecipientTaskID MessageType Message Specification Timestamp).1 =
      TISM_CircularBufferContents Buffer ++
        [⟨SenderTaskID, RecipientTaskID, MessageType, Message, Specification, Timestamp⟩] := by
  obtain ⟨L, H, T⟩ := Buffer
  dsimp only at hlen hH hT
  have hwaitlt : TISM_CircularBufferMessagesWaiting ⟨L, H, T⟩ + 2 ≤ MAX_MESSAGES := by
    unfold TISM_CircularBufferSlotsAvailable at hslots
    omega
  unfold TISM_CircularBufferMessagesWaiting at hwaitlt
  dsimp only at hwaitlt
  unfold TISM_CircularBufferWriteWithTimestamp
  rw [if_pos hslots]
  dsimp only
  refine ⟨rfl, rfl, ?_, ?_, ?_⟩
  · split
    · show 0 < MAX_MESSAGES
      norm_num [MAX_MESSAGES]
    · omega
  · simp [hlen]
  · by_cases hle : T ≤ H
    · have hwl : H - T + 2 ≤ MAX_MESSAGES := by
        split_ifs at hwaitlt <;> omega
      by_cases hwrap : H + 1 = MAX_MESSAGES
      · rw [if_pos hwrap]
        have hT1 : 0 < T := by omega
        unfold TISM_CircularBufferContents
        dsimp only
        rw [if_neg (by omega), if_pos hle, List.take_zero, List.append_nil]
        rw [List.drop_set, if_neg (by omega)]
        rw [List.set_eq_take_cons_drop _
          (by rw [List.length_drop, hlen]; omega)]
        have hdroplen : H - T + 1 = (L.drop T).length := by
          rw [List.length_drop, hlen]; omega
        rw [hdroplen, List.drop_length]
      · rw [if_neg hwrap]
        unfold TISM_CircularBufferContents
        dsimp only
        rw [if_pos (by omega), if_pos hle]
        rw [List.drop_set, if_neg (by omega)]
        rw [List.set_eq_take_cons_drop _
          (by rw [List.length_drop, hlen]; omega)]
        rw [show H + 1 - T = (H - T) + 1 from by omega]
        rw [List.take_append_eq_append_take]
        rw [List.take_take]
        rw [show min (H - T + 1) (H - T) = H - T from by omega]
        rw [List.length_take]
        rw [show min (H - T) (L.drop T).length = H - T from by
          rw [List.length_drop, hlen]; omega]
        rw [show H - T + 1 - (H - T) = 1 from by omega]
        rw [List.take_succ_cons, List.take_zero]
    · have hwl : MAX_MESSAGES - T + H + 2 ≤ MAX_MESSAGES := by
        split_ifs at hwaitlt <;> omega
      have hltT : H + 2 ≤ T := by omega
      rw [if_neg (by omega)]
      unfold TISM_CircularBufferContents
      dsimp only
      rw [if_neg (by omega), if_neg hle]
      rw [List.drop_set, if_pos (by omega)]
      rw [List.set_eq_take_cons_drop _ (by omega)]
      rw [List.take_append_eq_append_take]
      rw [List.take_take]
      rw [show min (H + 1) H = H from by omega]
      rw [List.length_take]
      rw [show min H L.length = H from by omega]
      rw [show H + 1 - H = 1 from by omega]
      rw [List.take_succ_cons, List.take_zero]
      rw [List.append_assoc]

/-- The wake-up loop appends to TaskManager's mailbox exactly one
set-sleep(false) request per marked id, in id order, provided the mailbox has
room for all of them. -/
theorem TISM_PostmanWakeLoop_fold (Now : Nat) :
    ∀ (ids : List Nat) (sys : TISM_PostmanSystem),
      ids.Nodup →
      sys.TISM_TaskManagerTaskID < sys.InboundMessageQueue.length →
      (TISM_PostmanTaskManagerInbound sys).Message.length = MAX_MESSAGES →
      (TISM_PostmanTaskManagerInbound sys).Head < MAX_MESSAGES →
      (TISM_PostmanTaskManagerInbound sys).Tail < MAX_MESSAGES →
      (ids.filter (fun t => sys.TaskReceivedMessage.getD t false)).length ≤
        TISM_CircularBufferSlotsAvailable (TISM_PostmanTaskManagerInbound sys) →
      TISM_CircularBufferContents
          (TISM_PostmanTaskManagerInbound (List.foldl (TISM_PostmanWakeStep Now) sys ids)) =
        TISM_CircularBufferContents (TISM_PostmanTaskManagerInbound sys) ++
          (ids.filter (fun t => sys.TaskReceivedMessage.getD t false)).map
            (fun t => ⟨sys.TISM_PostmanTaskID, sys.TISM_TaskManagerTaskID,
              TISM_SET_TASK_SLEEP, 0, t, Now⟩)
  | [], sys, _, _, _, _, _, _ => by simp
  | t :: ids, sys, hnodup, hidx, hlen, hHd, hTl, hroom => by
      obtain ⟨htnotin, hnodup'⟩ := List.nodup_cons.mp hnodup
      rw [List.foldl_cons]
      by_cases hflag : sys.TaskReceivedMessage.getD t false = true
      · have hfcons : (t :: ids).filter (fun u => sys.TaskReceivedMessage.getD u false) =
            t :: ids.filter (fun u => sys.TaskReceivedMessage.getD u false) :=
          List.filter_cons_of_pos hflag
        rw [hfcons] at hroom
        rw [List.length_cons] at hroom
        have hpos : 0 < TISM_CircularBufferSlotsAvailable
            (TISM_PostmanTaskManagerInbound sys) := by omega
        obtain ⟨hw2, hwTail, hwHead, hwLen, hwContents⟩ :=
          TISM_CircularBufferWriteWithTimestamp_spec (TISM_PostmanTaskManagerInbound sys)
            sys.TISM_PostmanTaskID sys.TISM_TaskManagerTaskID TISM_SET_TASK_SLEEP 0 t Now
            hlen hHd hTl hpos
        set W := (TISM_CircularBufferWriteWithTimestamp (TISM_PostmanTaskManagerInbound sys)
          sys.TISM_PostmanTaskID sys.TISM_TaskManagerTaskID TISM_SET_TASK_SLEEP 0 t Now).1
          with hWdef
        have hstep : TISM_PostmanWakeStep Now sys t =
            { sys with
                InboundMessageQueue :=
                  sys.InboundMessageQueue.set sys.TISM_TaskManagerTaskID W,
                TaskReceivedMessage := sys.TaskReceivedMessage.set t false } := by
          unfold TISM_PostmanWakeStep
          rw [if_pos hflag]
        rw [hstep]
        set sys1 : TISM_PostmanSystem :=
          { sys with
              InboundMessageQueue :=
                sys.InboundMessageQueue.set sys.TISM_TaskManagerTaskID W,
              TaskReceivedMessage := sys.TaskReceivedMessage.set t false }
          with hsys1
        have hTM1 : TISM_PostmanTaskManagerInbound sys1 = W := by
          rw [hsys1]
          unfold TISM_PostmanTaskManagerInbound
          dsimp only
          rw [List.getD_eq_getElem?_getD, List.getElem?_set_eq_of_lt W hidx]
          rfl
        have hidx1 : sys1.TISM_TaskManagerTaskID < sys1.InboundMessageQueue.length := by
          rw [hsys1]
          dsimp only
          rw [List.length_set]
          exact hidx
        have hlen1 : (TISM_PostmanTaskManagerInbound sys1).Message.length = MAX_MESSAGES := by
          rw [hTM1]; exact hwLen
        have hHd1 : (TISM_PostmanTaskManagerInbound sys1).Head < MAX_MESSAGES := by
          rw [hTM1]; exact hwHead
        have hTl1 : (TISM_PostmanTaskManagerInbound sys1).Tail < MAX_MESSAGES := by
          rw [hTM1, hwTail]; exact hTl
        have hflags1 : ∀ u ∈ ids, sys1.TaskReceivedMessage.getD u false =
            sys.TaskReceivedMessage.getD u false := by
          intro u hu
          rw [hsys1]
          dsimp only
          have hne : t ≠ u := by
            intro he
            exact htnotin (he ▸ hu)
          rw [List.getD_eq_getElem?_getD, List.getD_eq_getElem?_getD,
            List.getElem?_set_ne hne]
        have hfilter1 : ids.filter (fun u => sys1.TaskReceivedMessage.getD u false) =
            ids.filter (fun u => sys.TaskReceivedMessage.getD u false) :=
          List.filter_congr (fun u hu => hflags1 u hu)
        have hwait1 : TISM_CircularBufferMessagesWaiting W =
            TISM_CircularBufferMessagesWaiting (TISM_PostmanTaskManagerInbound sys) + 1 := by
          have hl1 := TISM_CircularBufferContents_length W hwLen hwHead
            (by rw [hwTail]; exact hTl)
          have hl2 := TISM_CircularBufferContents_length
            (TISM_PostmanTaskManagerInbound sys) hlen hHd hTl
          rw [hwContents, List.length_append, List.length_singleton] at hl1
          omega
        have hroom1 : (ids.filter (fun u => sys1.TaskReceivedMessage.getD u false)).length ≤
            TISM_CircularBufferSlotsAvailable (TISM_PostmanTaskManagerInbound sys1) := by
          rw [hfilter1, hTM1]
          unfold TISM_CircularBufferSlotsAvailable at hroom ⊢
          omega
        have hrec := TISM_PostmanWakeLoop_fold Now ids sys1 hnodup' hidx1 hlen1 hHd1 hTl1 hroom1
        rw [hrec, hTM1, hwContents, hfilter1, hfcons, List.map_cons]
        rw [hsys1]
        dsimp only
        rw [List.append_assoc, List.singleton_append]
      · have hstep : TISM_PostmanWakeStep Now sys t = sys := by
          unfold TISM_PostmanWakeStep
          rw [if_neg hflag]
        have hfcons : (t :: ids).filter (fun u => sys.TaskReceivedMessage.getD u false) =
            ids.filter (fun u => sys.TaskReceivedMessage.getD u false) :=
          List.filter_cons_of_neg hflag
        rw [hstep, hfcons]
        rw [hfcons] at hroom
        exact TISM_PostmanWakeLoop_fold Now ids sys hnodup' hidx hlen hHd hTl hroom

/-- C2 (amended): after the outbound queues are drained, for every recipient
whose received-flag is set — the marking of line 116 already excludes
TaskManager, but not the IRQ demux — the wake-up loop enqueues into
TaskManager's inbound mailbox one set-sleep(false) request naming that
recipient, in id order (given room in the mailbox); no wake-up request is
enqueued for TaskManager, while the IRQ demux does receive one whenever it
was marked. -/
theorem C2_wakeups_for_marked_recipients (Now : Nat) (sys : TISM_PostmanSystem)
    (hidx : sys.TISM_TaskManagerTaskID < sys.InboundMessageQueue.length)
    (hlen : (TISM_PostmanTaskManagerInbound sys).Message.length = MAX_MESSAGES)
    (hHd : (TISM_PostmanTaskManagerInbound sys).Head < MAX_MESSAGES)
    (hTl : (TISM_PostmanTaskManagerInbound sys).Tail < MAX_MESSAGES)
    (hTMflag : sys.TaskReceivedMessage.getD sys.TISM_TaskManagerTaskID false = false)
    (hroom : ((List.range sys.NumberOfTasks).filter
        (fun t => sys.TaskReceivedMessage.getD t false)).length ≤
      TISM_CircularBufferSlotsAvailable (TISM_PostmanTaskManagerInbound sys)) :
    TISM_CircularBufferContents
        (TISM_PostmanTaskManagerInbound (TISM_PostmanWakeLoop Now sys)) =
      TISM_CircularBufferContents (TISM_PostmanTaskManagerInbound sys) ++
        ((List.range sys.NumberOfTasks).filter
            (fun t => sys.TaskReceivedMessage.getD t false)).map
          (fun t => ⟨sys.TISM_PostmanTaskID, sys.TISM_TaskManagerTaskID,
            TISM_SET_TASK_SLEEP, 0, t, Now⟩) ∧
    sys.TISM_TaskManagerTaskID ∉ (List.range sys.NumberOfTasks).filter
        (fun t => sys.TaskReceivedMessage.getD t false) := by
  constructor
  · exact TISM_PostmanWakeLoop_fold Now (List.range sys.NumberOfTasks) sys
      (List.nodup_range _) hidx hlen hHd hTl hroom
  · intro hmem
    have hp := List.of_mem_filter hmem
    rw [hTMflag] at hp
    exact Bool.false_ne_true hp

/-- A five-task system after a drain that marked the IRQ demux (task id 1) as
having received a message. -/
def examplePostmanSystemMarked : TISM_PostmanSystem :=
  { NumberOfTasks := 5, TISM_PostmanTaskID := 0, TISM_TaskManagerTaskID := 3,
    TISM_IRQHandlerTaskID := 1,
    InboundMessageQueue := List.replicate 5 TISM_CircularBufferInitialized,
    OutboundMessageQueue := List.replicate MAX_CORES TISM_CircularBufferInitialized,
    TaskReceivedMessage := (List.replicate MAX_TASKS false).set 1 true,
    Warnings := [] }

/-- C2 witness: with the IRQ demux (id 1) marked, the wake-up loop appends to
TaskManager's mailbox exactly the set-sleep(false) request naming task 1. -/
theorem C2_wakeups_for_marked_recipients_witness :
    examplePostmanSystemMarked.TaskReceivedMessage.getD
        examplePostmanSystemMarked.TISM_TaskManagerTaskID false = false ∧
    TISM_CircularBufferContents
        (TISM_PostmanTaskManagerInbound
          (TISM_PostmanWakeLoop 1000 examplePostmanSystemMarked)) =
      TISM_CircularBufferContents
          (TISM_PostmanTaskManagerInbound examplePostmanSystemMarked) ++
        [⟨0, 3, TISM_SET_TASK_SLEEP, 0, 1, 1000⟩] := by
  have h := (C2_wakeups_for_marked_recipients 1000 examplePostmanSystemMarked
    (by decide) rfl (by decide) (by decide) rfl (by decide)).1
  refine ⟨rfl, ?_⟩
  have hfil : (List.range examplePostmanSystemMarked.NumberOfTasks).filter
      (fun t => examplePostmanSystemMarked.TaskReceivedMessage.getD t false) = [1] := by
    decide
  rw [hfil] at h
  simpa using h

end TISM
